import Mathlib

/-!
Verification of the consensus primitives of the cryptadev/doge repository:
the AuxPoW validator, the Merkle branch verifier, block-header hashing and
version flags, per-network consensus parameters, and the genesis blocks.

Bytes are modelled as natural numbers below 256 and byte strings as
`List Nat`; 256-bit hashes are 32-byte lists in the internal (wire) order,
so the conventional big-endian display hex is the reverse of the list.
Machine integers are modelled as `Nat` with explicit `% 2^32` at overflow
sites, and C++ `int` values as `Int` with explicit floor division and
Euclidean remainder where the code shifts or masks them.
-/

namespace Doge

/-- The 32-bit word modulus. -/
def M32 : Nat := 4294967296

/-- Little-endian 4-byte encoding of a 32-bit value. -/
def le32 (n : Nat) : List Nat :=
  [n % 256, n / 256 % 256, n / 65536 % 256, n / 16777216 % 256]

/-- Little-endian 8-byte encoding of a 64-bit value. -/
def le64 (n : Nat) : List Nat :=
  le32 (n % M32) ++ le32 (n / M32)

/-- Big-endian 4-byte encoding of a 32-bit word. -/
def be32 (n : Nat) : List Nat :=
  [n / 16777216 % 256, n / 65536 % 256, n / 256 % 256, n % 256]

/-- Big-endian 8-byte encoding of a 64-bit value. -/
def be64 (n : Nat) : List Nat :=
  be32 (n / M32) ++ be32 (n % M32)

/-- Read a little-endian 32-bit value from a byte list at offset `i`
(out-of-range bytes read as zero). -/
def readLE32 (s : List Nat) (i : Nat) : Nat :=
  s.getD i 0 + 256 * s.getD (i+1) 0 + 65536 * s.getD (i+2) 0 +
    16777216 * s.getD (i+3) 0

/-- The all-zero 256-bit hash, `uint256()`. -/
def zero256 : List Nat := List.replicate 32 0

/-! ## SHA-256

Modelled from the spec: the crypto/sha256 unit of the repository is not
among the provided sources; the spec (section 4.1) requires standard SHA-256 with
`dsha256` as two sequential rounds.  The definitions below are FIPS 180-4
SHA-256 over byte lists. -/

/-- Rotate a 32-bit word right by `n` bits. -/
def rotr32 (x n : Nat) : Nat := ((x >>> n) ||| (x <<< (32 - n))) % M32

/-- SHA-256 message-schedule sigma-0. -/
def schedSig0 (x : Nat) : Nat := (rotr32 x 7) ^^^ (rotr32 x 18) ^^^ (x >>> 3)

/-- SHA-256 message-schedule sigma-1. -/
def schedSig1 (x : Nat) : Nat := (rotr32 x 17) ^^^ (rotr32 x 19) ^^^ (x >>> 10)

/-- SHA-256 round Sigma-0. -/
def roundSig0 (x : Nat) : Nat := (rotr32 x 2) ^^^ (rotr32 x 13) ^^^ (rotr32 x 22)

/-- SHA-256 round Sigma-1. -/
def roundSig1 (x : Nat) : Nat := (rotr32 x 6) ^^^ (rotr32 x 11) ^^^ (rotr32 x 25)

/-- The 64 SHA-256 round constants, written in decimal. -/
def sha256K : List Nat :=
  [1116352408, 1899447441, 3049323471, 3921009573, 961987163,
   1508970993, 2453635748, 2870763221, 3624381080, 310598401,
   607225278, 1426881987, 1925078388, 2162078206, 2614888103,
   3248222580, 3835390401, 4022224774, 264347078, 604807628,
   770255983, 1249150122, 1555081692, 1996064986, 2554220882,
   2821834349, 2952996808, 3210313671, 3336571891, 3584528711,
   113926993, 338241895, 666307205, 773529912, 1294757372,
   1396182291, 1695183700, 1986661051, 2177026350, 2456956037,
   2730485921, 2820302411, 3259730800, 3345764771, 3516065817,
   3600352804, 4094571909, 275423344, 430227734, 506948616,
   659060556, 883997877, 958139571, 1322822218, 1537002063,
   1747873779, 1955562222, 2024104815, 2227730452, 2361852424,
   2428436474, 2756734187, 3204031479, 3329325298]

/-- The eight SHA-256 initial state words, written in decimal. -/
def sha256Init : List Nat :=
  [1779033703, 3144134277, 1013904242, 2773480762,
   1359893119, 2600822924, 528734635, 1541459225]

/-- Split a byte list into chunks of `k` bytes: worker, structural in the
input list.  `cnt` counts the bytes still missing from the current chunk,
`cur` holds the current chunk reversed. -/
def splitEveryGo (k : Nat) : Nat → List Nat → List Nat → List (List Nat)
  | _, cur, [] => if cur = [] then [] else [cur.reverse]
  | cnt, cur, b :: bs =>
    if cnt = 1 then ((b :: cur).reverse) :: splitEveryGo k k [] bs
    else splitEveryGo k (cnt - 1) (b :: cur) bs

/-- Split a byte list into 4-byte chunks. -/
def chunks4 (l : List Nat) : List (List Nat) := splitEveryGo 4 4 [] l

/-- Split a byte list into 64-byte chunks. -/
def chunks64 (l : List Nat) : List (List Nat) := splitEveryGo 64 64 [] l

/-- Read a big-endian 32-bit word from (up to) four bytes. -/
def wordBE (bs : List Nat) : Nat :=
  bs.foldl (fun a b => a * 256 + b) 0

/-- Extend 16 schedule words to 64. -/
def sha256Schedule (ws : List Nat) : List Nat :=
  (List.range 48).foldl (fun acc _ =>
    let n := acc.length
    let w := (schedSig1 (acc.getD (n-2) 0) + acc.getD (n-7) 0 +
              schedSig0 (acc.getD (n-15) 0) + acc.getD (n-16) 0) % M32
    acc ++ [w]) ws

/-- One SHA-256 round on the 8-word state; `kw` is the round constant plus
the schedule word. -/
def sha256Round (st : List Nat) (kw : Nat) : List Nat :=
  match st with
  | [a, b, c, d, e, f, g, h] =>
    let ch := (e &&& f) ^^^ ((e ^^^ 4294967295) &&& g)
    let maj := (a &&& b) ^^^ (a &&& c) ^^^ (b &&& c)
    let t1 := (h + roundSig1 e + ch + kw) % M32
    let t2 := (roundSig0 a + maj) % M32
    [(t1 + t2) % M32, a, b, c, (d + t1) % M32, e, f, g]
  | other => other

/-- The SHA-256 compression function on one 64-byte block. -/
def sha256Compress (st : List Nat) (block : List Nat) : List Nat :=
  let ws := sha256Schedule ((chunks4 block).map wordBE)
  let kws := List.zipWith (fun k w => k + w) sha256K ws
  let fin := kws.foldl sha256Round st
  List.zipWith (fun x y => (x + y) % M32) st fin

/-- SHA-256 padding: append 0x80, zeros to 56 mod 64, and the bit length
big-endian in 8 bytes. -/
def sha256Pad (msg : List Nat) : List Nat :=
  let z := (119 - msg.length % 64) % 64
  msg ++ (128 :: List.replicate z 0) ++ be64 (8 * msg.length)

/-- SHA-256 of a byte list, as 32 bytes. -/
def sha256 (msg : List Nat) : List Nat :=
  ((chunks64 (sha256Pad msg)).foldl sha256Compress sha256Init).foldr
    (fun w acc => be32 w ++ acc) []

/-- Double SHA-256, the `Hash` primitive of the code. -/
def dsha256 (msg : List Nat) : List Nat := sha256 (sha256 msg)

/-- Sanity check of the SHA-256 model against the FIPS 180-4 test vector
for the empty message. -/
theorem sha256_empty_vector : sha256 [] =
    [0xe3, 0xb0, 0xc4, 0x42, 0x98, 0xfc, 0x1c, 0x14, 0x9a, 0xfb, 0xf4, 0xc8,
     0x99, 0x6f, 0xb9, 0x24, 0x27, 0xae, 0x41, 0xe4, 0x64, 0x9b, 0x93, 0x4c,
     0xa4, 0x95, 0x99, 0x1b, 0x78, 0x52, 0xb8, 0x55] := by decide

/-! ## Block header model (src/primitives/block.h) -/

/-- The value of a `Nat` bit pattern read as a twos-complement `int32_t`. -/
def toSigned32 (v : Nat) : Int :=
  if v < 2147483648 then (v : Int) else (v : Int) - 4294967296

/-- CBlockHeader::GetChainId: `nVersion >> 16` on the signed 32-bit version
(arithmetic shift, i.e. floor division by 65536). -/
def getChainIdOfVersion (v : Nat) : Int :=
  (toSigned32 v).fdiv 65536

/-- CBlockHeader::GetBaseVersion: `nVersion & 0xFF`. -/
def getBaseVersionOfVersion (v : Nat) : Nat := v % 256

/-- CBlockHeader::IsAuxpow: `nVersion & VERSION_AUXPOW` with
`VERSION_AUXPOW = 1 << 8`. -/
def isAuxpowVersion (v : Nat) : Bool := v.testBit 8

/-- CBlockHeader::IsLegacy:
`(nVersion == 1) || (nVersion == 2 && GetChainId() == 0)`. -/
def isLegacyVersion (v : Nat) : Bool :=
  toSigned32 v == 1 || (toSigned32 v == 2 && getChainIdOfVersion v == 0)

/-- The six-field core of CBlockHeader: the 80-byte hashing preimage.
The version is stored as its 32-bit pattern.  The parent block inside an
AuxPoW is carried as this core: the code never touches the auxpow pointer
of the parent block, so modelling it without one is faithful and breaks
the C++ shared-pointer recursion. -/
structure HeaderCore where
  nVersion : Nat
  hashPrevBlock : List Nat
  hashMerkleRoot : List Nat
  nTime : Nat
  nBits : Nat
  nNonce : Nat
deriving DecidableEq, Repr

/-- GetChainId of a header core. -/
def HeaderCore.GetChainId (h : HeaderCore) : Int := getChainIdOfVersion h.nVersion

/-- Modelled from the spec: the transaction sources
(primitives/transaction.h, the script class) are not provided; the spec
(section 6) says AuxPoW consumes only `tx_id() -> Hash256` and
`vin[0].script_sig` as an opaque byte sequence, so the coinbase is carried
as exactly that pair. -/
structure CoinbaseTx where
  txid : List Nat
  scriptSig : List Nat
deriving DecidableEq, Repr

/-- CAuxPow (src/primitives/block.h lines 199-235). -/
structure CAuxPow where
  tx : CoinbaseTx
  hashBlock : List Nat
  vMerkleBranch : List (List Nat)
  nIndex : Int
  vChainMerkleBranch : List (List Nat)
  nChainIndex : Int
  parentBlock : HeaderCore
deriving DecidableEq, Repr

/-- CBlockHeader: the 80-byte core plus the optional AuxPoW appendix. -/
structure CBlockHeader where
  nVersion : Nat
  hashPrevBlock : List Nat
  hashMerkleRoot : List Nat
  nTime : Nat
  nBits : Nat
  nNonce : Nat
  auxpow : Option CAuxPow

/-- The 80-byte hash preimage of a header: the serialization of the six
fields in the layout of spec section 6 (the `SER_GETHASH` stream stops
before the appendix). -/
def CBlockHeader.serialize80 (h : CBlockHeader) : List Nat :=
  le32 h.nVersion ++ h.hashPrevBlock ++ h.hashMerkleRoot ++
    le32 h.nTime ++ le32 h.nBits ++ le32 h.nNonce

/-- CBlockHeader::GetHash: double SHA-256 of the 80-byte preimage
(SerializeHash hashes with SER_GETHASH, so SerializationOp writes only the
six fields). -/
def CBlockHeader.GetHash (h : CBlockHeader) : List Nat :=
  dsha256 h.serialize80

/-! ## Merkle branch verifier and expected index
(src/primitives/block.cpp lines 52-70) -/

/-- The loop of CheckMerkleBranch: one iteration per branch node; C++
`nIndex & 1` on a twos-complement int is `emod 2`, `nIndex >>= 1` is the
arithmetic shift, i.e. floor division by 2. -/
def checkMerkleBranchGo : List Nat → List (List Nat) → Int → List Nat
  | hash, [], _ => hash
  | hash, b :: rest, nIndex =>
    checkMerkleBranchGo
      (if nIndex % 2 = 1 then dsha256 (b ++ hash) else dsha256 (hash ++ b))
      rest (nIndex.fdiv 2)

/-- CheckMerkleBranch (block.cpp lines 52-62): `-1` is the legacy sentinel
returning the all-zero hash; otherwise fold the branch over the leaf. -/
def CheckMerkleBranch (hash : List Nat) (vMerkleBranch : List (List Nat))
    (nIndex : Int) : List Nat :=
  if nIndex = -1 then zero256 else checkMerkleBranchGo hash vMerkleBranch nIndex

/-- getExpectedIndex (block.cpp lines 64-70): unsigned 32-bit wrapping
arithmetic; `rand += nChainId` converts the int chain id to uint32, i.e.
adds modulo 2^32 in twos complement. -/
def getExpectedIndex (nNonce : Nat) (nChainId : Int) (h : Nat) : Int :=
  let r1 := (nNonce * 1103515245 + 12345) % M32
  let r2 := (((r1 : Int) + nChainId) % (M32 : Int)).toNat
  let r3 := (r2 * 1103515245 + 12345) % M32
  ((r3 % 2 ^ h : Nat) : Int)

/-! ## Consensus parameters (src/consensus/params.h, src/chainparams.cpp)

Only the consensus-relevant scalar fields are carried; hash-valued fields
(genesis hash, BIP34 hash, minimum chain work, assume-valid) and the PoW
limit are omitted because no embedded operation reads them. -/

/-- Consensus::Params (src/consensus/params.h lines 50-92), the scalar
fields. -/
structure ConsensusParams where
  nSubsidyHalvingInterval : Int
  BIP34Height : Int
  BIP65Height : Int
  BIP66Height : Int
  CSVHeight : Int
  WitnessHeight : Int
  nCoinbaseMaturityBegin : Nat
  CoinbaseMaturity240Height : Int
  fPowAllowMinDifficultyBlocks : Bool
  nPowTargetSpacing : Int
  nPowTargetTimespanBegin : Int
  PowTargetTimespan60Height : Int
  nAuxpowChainId : Int
  fStrictChainId : Bool
  DigishieldDifficultyCalculationHeight : Int
  SimplifiedRewardsHeight : Int
  DisallowLegacyBlocksHeight : Int
deriving DecidableEq, Repr

/-- Consensus::Params::nCoinbaseMaturity (params.h lines 69-71). -/
def ConsensusParams.nCoinbaseMaturity (p : ConsensusParams) (Height : Int) : Int :=
  if Height ≥ p.CoinbaseMaturity240Height then 240 else (p.nCoinbaseMaturityBegin : Int)

/-- Consensus::Params::nPowTargetTimespan (params.h lines 78-80). -/
def ConsensusParams.nPowTargetTimespan (p : ConsensusParams) (Height : Int) : Int :=
  if Height ≥ p.PowTargetTimespan60Height then 60 else p.nPowTargetTimespanBegin

/-- The consensus fields installed by CMainParams (chainparams.cpp
lines 69-96). -/
def mainConsensus : ConsensusParams where
  nSubsidyHalvingInterval := 100000
  BIP34Height := 1034383
  BIP65Height := 3464751
  BIP66Height := 1034383
  CSVHeight := 0
  WitnessHeight := 0
  nCoinbaseMaturityBegin := 30
  CoinbaseMaturity240Height := 145000
  fPowAllowMinDifficultyBlocks := false
  nPowTargetSpacing := 60
  nPowTargetTimespanBegin := 4 * 60 * 60
  PowTargetTimespan60Height := 145000
  nAuxpowChainId := 0x0062
  fStrictChainId := true
  DigishieldDifficultyCalculationHeight := 145000
  SimplifiedRewardsHeight := 145000
  DisallowLegacyBlocksHeight := 371337

/-- The consensus fields installed by CTestNetParams (chainparams.cpp
lines 163-191). -/
def testConsensus : ConsensusParams where
  nSubsidyHalvingInterval := 100000
  BIP34Height := 708658
  BIP65Height := 1854705
  BIP66Height := 708658
  CSVHeight := 0
  WitnessHeight := 0
  nCoinbaseMaturityBegin := 30
  CoinbaseMaturity240Height := 145000
  fPowAllowMinDifficultyBlocks := true
  nPowTargetSpacing := 60
  nPowTargetTimespanBegin := 4 * 60 * 60
  PowTargetTimespan60Height := 145000
  nAuxpowChainId := 0x0062
  fStrictChainId := false
  DigishieldDifficultyCalculationHeight := 145000
  SimplifiedRewardsHeight := 145000
  DisallowLegacyBlocksHeight := 158100

/-- The consensus fields installed by CRegTestParams (chainparams.cpp
lines 246-273). -/
def regtestConsensus : ConsensusParams where
  nSubsidyHalvingInterval := 150
  BIP34Height := 100000000
  BIP65Height := 1251
  BIP66Height := 1251
  CSVHeight := 0
  WitnessHeight := 0
  nCoinbaseMaturityBegin := 60
  CoinbaseMaturity240Height := 100000
  fPowAllowMinDifficultyBlocks := true
  nPowTargetSpacing := 1
  nPowTargetTimespanBegin := 1
  PowTargetTimespan60Height := 100000
  nAuxpowChainId := 0x0062
  fStrictChainId := true
  DigishieldDifficultyCalculationHeight := 10
  SimplifiedRewardsHeight := 0
  DisallowLegacyBlocksHeight := 20

/-! ## The AuxPoW validator (CAuxPow::check) -/

/-- The byte pattern `pat` occurs in `s` at offset `i`. -/
def matchesAt (s pat : List Nat) (i : Nat) : Bool :=
  (s.drop i).take pat.length == pat

/-- First occurrence of `pat` in `s` at offset `start` or later
(std::search over the byte range; `none` is `script.end()`). -/
def findSub (s pat : List Nat) (start : Nat) : Option Nat :=
  (List.range (s.length + 1)).find? (fun i => Nat.ble start i && matchesAt s pat i)

/-- The 4-byte merged-mining magic `0xfa 0xbe 0x6d 0x6d` (fabe mm). -/
def mergedHdrMagic : List Nat := [0xfa, 0xbe, 0x6d, 0x6d]

/-- The distinct outcomes of CAuxPow::check, one per `error(...)` site in
block.cpp, in source order, plus success. -/
inductive CheckResult where
  | ok
  | notAGenerate
  | parentHasOurChainId
  | chainBranchTooLong
  | merkleRootIncorrect
  | missingChainMerkleRoot
  | multipleMergedMiningHeaders
  | headerNotJustBeforeRoot
  | rootMustStartInFirst20Bytes
  | chainMerkleSizeMissing
  | merkleBranchSizeMismatch
  | wrongIndex
deriving DecidableEq, Repr

/-- The tail of CAuxPow::check shared by both marker-policy branches
(block.cpp lines 109-128): advance past the 32-byte root at `pcPos`,
require 8 more bytes, read the little-endian size and nonce, and compare
the size against `1 << |chain branch|` and the chain index against
getExpectedIndex. -/
def checkSizeAndIndex (script : List Nat) (pcPos : Nat) (merkleHeight : Nat)
    (nChainIndex nChainId : Int) : CheckResult :=
  let pc := pcPos + 32
  if script.length - pc < 8 then .chainMerkleSizeMissing
  else
    let nSize := readLE32 script pc
    if nSize ≠ 2 ^ merkleHeight then .merkleBranchSizeMismatch
    else
      let nNonce := readLE32 script (pc + 4)
      if nChainIndex ≠ getExpectedIndex nNonce nChainId merkleHeight then .wrongIndex
      else .ok

/-- CAuxPow::check, the canonical variant (src/primitives/block.cpp lines
72-129), transcribed check for check in source order. -/
def CAuxPow.check (aux : CAuxPow) (hashAuxBlock : List Nat) (nChainId : Int)
    (params : ConsensusParams) : CheckResult :=
  if aux.nIndex ≠ 0 then .notAGenerate
  else if params.fStrictChainId ∧ aux.parentBlock.GetChainId = nChainId then
    .parentHasOurChainId
  else if 30 < aux.vChainMerkleBranch.length then .chainBranchTooLong
  else
    let vchRootHash :=
      (CheckMerkleBranch hashAuxBlock aux.vChainMerkleBranch aux.nChainIndex).reverse
    if CheckMerkleBranch aux.tx.txid aux.vMerkleBranch aux.nIndex ≠
        aux.parentBlock.hashMerkleRoot then .merkleRootIncorrect
    else
      let script := aux.tx.scriptSig
      let pcHead := findSub script mergedHdrMagic 0
      match findSub script vchRootHash 0 with
      | none => .missingChainMerkleRoot
      | some pcPos =>
        match pcHead with
        | some headPos =>
          if (findSub script mergedHdrMagic (headPos + 1)).isSome then
            .multipleMergedMiningHeaders
          else if headPos + 4 ≠ pcPos then .headerNotJustBeforeRoot
          else checkSizeAndIndex script pcPos aux.vChainMerkleBranch.length
            aux.nChainIndex nChainId
        | none =>
          if 20 < pcPos then .rootMustStartInFirst20Bytes
          else checkSizeAndIndex script pcPos aux.vChainMerkleBranch.length
            aux.nChainIndex nChainId

/-- The superseded variant of CAuxPow::check from
src/primitives/block__.cpp (lines 114-169): no coinbase-index gate, and the
literal index 0 handed to the coinbase Merkle verification; otherwise
identical text. -/
def CAuxPow.checkVariantB (aux : CAuxPow) (hashAuxBlock : List Nat)
    (nChainId : Int) (params : ConsensusParams) : CheckResult :=
  if params.fStrictChainId ∧ aux.parentBlock.GetChainId = nChainId then
    .parentHasOurChainId
  else if 30 < aux.vChainMerkleBranch.length then .chainBranchTooLong
  else
    let vchRootHash :=
      (CheckMerkleBranch hashAuxBlock aux.vChainMerkleBranch aux.nChainIndex).reverse
    if CheckMerkleBranch aux.tx.txid aux.vMerkleBranch 0 ≠
        aux.parentBlock.hashMerkleRoot then .merkleRootIncorrect
    else
      let script := aux.tx.scriptSig
      let pcHead := findSub script mergedHdrMagic 0
      match findSub script vchRootHash 0 with
      | none => .missingChainMerkleRoot
      | some pcPos =>
        match pcHead with
        | some headPos =>
          if (findSub script mergedHdrMagic (headPos + 1)).isSome then
            .multipleMergedMiningHeaders
          else if headPos + 4 ≠ pcPos then .headerNotJustBeforeRoot
          else checkSizeAndIndex script pcPos aux.vChainMerkleBranch.length
            aux.nChainIndex nChainId
        | none =>
          if 20 < pcPos then .rootMustStartInFirst20Bytes
          else checkSizeAndIndex script pcPos aux.vChainMerkleBranch.length
            aux.nChainIndex nChainId

/-! ## The mainnet genesis block (src/chainparams.cpp lines 17-54, 110-113)

The genesis header is built exactly as CreateGenesisBlock does; the pieces
of the coinbase transaction that live in sources not provided
(primitives/transaction.h, script/script.h, consensus/merkle.cpp) are
modelled from the spec as noted on each definition, and the computed hash
and Merkle root are checked against the literals the code asserts. -/

/-- CompactSize length encoding (spec section 4.2). -/
def compactSize (n : Nat) : List Nat :=
  if n < 0xfd then [n]
  else if n < 65536 then [0xfd, n % 256, n / 256 % 256]
  else if n < M32 then 0xfe :: le32 n
  else 0xff :: le64 n

/-- Modelled from the spec: the script class is not provided; pushing a
data vector shorter than 76 bytes onto a script emits the length byte then
the data (Bitcoin-style push, spec section 4.2 serialization family). -/
def scriptPushData (v : List Nat) : List Nat := v.length :: v

/-- Little-endian minimal bytes of a value, with fuel for structural
recursion (9 bytes cover every 64-bit value). -/
def natLEBytesGo : Nat → Nat → List Nat
  | 0, _ => []
  | fuel + 1, n => if n = 0 then [] else n % 256 :: natLEBytesGo fuel (n / 256)

/-- Modelled from the spec: CScriptNum serialization of a nonnegative
value — minimal little-endian bytes, plus a zero byte when the top bit of
the last byte would read as a sign bit. -/
def scriptNumBytes (n : Nat) : List Nat :=
  let b := natLEBytesGo 9 n
  match b.getLast? with
  | some x => if 128 ≤ x then b ++ [0] else b
  | none => b

/-- The genesis coinbase input script,
`CScript() << 486604799 << CScriptNum(4) << timestamp bytes`
(chainparams.cpp line 23): each operand is pushed as data. -/
def genesisScriptSig (pszTimestamp : List Nat) : List Nat :=
  scriptPushData (scriptNumBytes 486604799) ++
    scriptPushData (scriptNumBytes 4) ++ scriptPushData pszTimestamp

/-- Modelled from the spec: transaction serialization
(primitives/transaction.h is not provided) — the standard Bitcoin layout
the tx_id of the spec refers to: version, input count, per input the 36-byte
prevout, the CompactSize-prefixed script and the sequence, output count,
per output the 8-byte value and the CompactSize-prefixed script, then the
lock time.  The genesis coinbase has version 1, one input with the null
prevout (zero hash, index 0xffffffff) and final sequence, one output, and
lock time zero. -/
def genesisCoinbaseSer (scriptSig outputScript : List Nat) (reward : Nat) : List Nat :=
  le32 1 ++ [1] ++ zero256 ++ le32 0xffffffff ++
    compactSize scriptSig.length ++ scriptSig ++ le32 0xffffffff ++
    [1] ++ le64 reward ++
    compactSize outputScript.length ++ outputScript ++ le32 0

/-- CreateGenesisBlock (chainparams.cpp lines 17-36): build the coinbase,
take its id as the Merkle root (modelled from the spec: consensus/merkle is
not provided, and the root of the single-leaf transaction tree is the
txid), and assemble the header. -/
def createGenesisBlock (pszTimestamp outputScript : List Nat)
    (nTime nNonce nBits nVersion genesisReward : Nat) : CBlockHeader :=
  { nVersion := nVersion
    hashPrevBlock := zero256
    hashMerkleRoot :=
      dsha256 (genesisCoinbaseSer (genesisScriptSig pszTimestamp) outputScript genesisReward)
    nTime := nTime
    nBits := nBits
    nNonce := nNonce
    auxpow := none }

/-- The ASCII bytes of the genesis timestamp literal "Nintondo". -/
def nintondoBytes : List Nat := [0x4e, 0x69, 0x6e, 0x74, 0x6f, 0x6e, 0x64, 0x6f]

/-- The 65-byte genesis public key (chainparams.cpp line 52). -/
def genesisPubKey : List Nat :=
  [0x04, 0x01, 0x84, 0x71, 0x0f, 0xa6, 0x89, 0xad, 0x50, 0x23, 0x69, 0x0c,
   0x80, 0xf3, 0xa4, 0x9c, 0x8f, 0x13, 0xf8, 0xd4, 0x5b, 0x8c, 0x85, 0x7f,
   0xbc, 0xbc, 0x8b, 0xc4, 0xa8, 0xe4, 0xd3, 0xeb, 0x4b, 0x10, 0xf4, 0xd4,
   0x60, 0x4f, 0xa0, 0x8d, 0xce, 0x60, 0x1a, 0xaf, 0x0f, 0x47, 0x02, 0x16,
   0xfe, 0x1b, 0x51, 0x85, 0x0b, 0x4a, 0xcf, 0x21, 0xb1, 0x79, 0xc4, 0x50,
   0x70, 0xac, 0x7b, 0x03, 0xa9]

/-- The genesis output script: push the 65-byte key, then OP_CHECKSIG
(0xac). -/
def genesisOutputScript : List Nat := scriptPushData genesisPubKey ++ [0xac]

/-- The mainnet genesis block,
`CreateGenesisBlock(1386325540, 99943, 0x1e0ffff0, 1, 88 * COIN)`
(chainparams.cpp line 110) with `COIN = 100000000`. -/
def mainGenesis : CBlockHeader :=
  createGenesisBlock nintondoBytes genesisOutputScript
    1386325540 99943 0x1e0ffff0 1 (88 * 100000000)

/-- The asserted mainnet genesis hash
0x1a91e3dace36e2be3bf030a65679fe821aa1d6ef92e7c9902eb318182c355691 in its
display (big-endian hex) byte order; uint256S stores these bytes
reversed. -/
def mainGenesisHashDisplay : List Nat :=
  [0x1a, 0x91, 0xe3, 0xda, 0xce, 0x36, 0xe2, 0xbe, 0x3b, 0xf0, 0x30, 0xa6,
   0x56, 0x79, 0xfe, 0x82, 0x1a, 0xa1, 0xd6, 0xef, 0x92, 0xe7, 0xc9, 0x90,
   0x2e, 0xb3, 0x18, 0x18, 0x2c, 0x35, 0x56, 0x91]

/-- The asserted genesis Merkle root
0x5b2a3f53f605d62c53e62932dac6925e3d74afa5a4b459745c36d42d0ed26a69 in its
display byte order. -/
def mainMerkleRootDisplay : List Nat :=
  [0x5b, 0x2a, 0x3f, 0x53, 0xf6, 0x05, 0xd6, 0x2c, 0x53, 0xe6, 0x29, 0x32,
   0xda, 0xc6, 0x92, 0x5e, 0x3d, 0x74, 0xaf, 0xa5, 0xa4, 0xb4, 0x59, 0x74,
   0x5c, 0x36, 0xd4, 0x2d, 0x0e, 0xd2, 0x6a, 0x69]

/-! ## Theorems for the claims -/

/-- C1: an AuxPoW appendix whose coinbase Merkle index nIndex is nonzero is
rejected by the canonical CAuxPow::check with the NotAGenerate error,
whatever the other appendix fields, the aux block hash, the chain id and
the parameters are. -/
theorem nonzero_index_is_notAGenerate (aux : CAuxPow) (hashAuxBlock : List Nat)
    (nChainId : Int) (params : ConsensusParams) (h : aux.nIndex ≠ 0) :
    aux.check hashAuxBlock nChainId params = .notAGenerate := by
  unfold CAuxPow.check
  rw [if_pos h]

/-- Witness for C1 at a concrete appendix with nIndex = 1. -/
theorem nonzero_index_is_notAGenerate_witness :
    CAuxPow.check ⟨⟨[], []⟩, [], [], 1, [], 0, ⟨1, [], [], 0, 0, 0⟩⟩ []
      98 mainConsensus = .notAGenerate :=
  nonzero_index_is_notAGenerate _ _ _ _ (by decide)

/-- C2: on appendices whose coinbase Merkle index is 0, the canonical
CAuxPow::check (block.cpp) and the superseded variant (block__.cpp, no
index gate, literal 0 fed to the Merkle verifier) return the same verdict
for the same aux block hash, chain id and parameters. -/
theorem check_variants_agree_on_zero_index (aux : CAuxPow)
    (hashAuxBlock : List Nat) (nChainId : Int) (params : ConsensusParams)
    (h : aux.nIndex = 0) :
    aux.check hashAuxBlock nChainId params =
      aux.checkVariantB hashAuxBlock nChainId params := by
  unfold CAuxPow.check CAuxPow.checkVariantB
  rw [h]
  simp

/-- Witness for C2 at a concrete appendix with nIndex = 0. -/
theorem check_variants_agree_on_zero_index_witness :
    CAuxPow.check ⟨⟨[], []⟩, [], [], 0, [], 0, ⟨1, [], [], 0, 0, 0⟩⟩ []
        98 mainConsensus =
      CAuxPow.checkVariantB ⟨⟨[], []⟩, [], [], 0, [], 0, ⟨1, [], [], 0, 0, 0⟩⟩ []
        98 mainConsensus :=
  check_variants_agree_on_zero_index _ _ _ _ rfl

/-- C3: GetHash is the double SHA-256 of the 80-byte preimage and depends
only on the six preimage fields: headers that agree on them hash equally,
whatever their auxpow appendices are. -/
theorem getHash_depends_only_on_preimage (h1 h2 : CBlockHeader)
    (hv : h1.nVersion = h2.nVersion) (hp : h1.hashPrevBlock = h2.hashPrevBlock)
    (hm : h1.hashMerkleRoot = h2.hashMerkleRoot) (ht : h1.nTime = h2.nTime)
    (hb : h1.nBits = h2.nBits) (hn : h1.nNonce = h2.nNonce) :
    h1.GetHash = dsha256 h1.serialize80 ∧ h1.GetHash = h2.GetHash := by
  constructor
  · rfl
  · unfold CBlockHeader.GetHash CBlockHeader.serialize80
    rw [hv, hp, hm, ht, hb, hn]

/-- Witness for C3: two concrete headers with the same six fields, one
without an appendix, one with an appendix. -/
theorem getHash_depends_only_on_preimage_witness :
    (⟨1, [], [], 0, 0, 0, none⟩ : CBlockHeader).GetHash =
        dsha256 (⟨1, [], [], 0, 0, 0, none⟩ : CBlockHeader).serialize80 ∧
      (⟨1, [], [], 0, 0, 0, none⟩ : CBlockHeader).GetHash =
        (⟨1, [], [], 0, 0, 0,
          some ⟨⟨[], []⟩, [], [], 5, [], 7, ⟨2, [], [], 0, 0, 0⟩⟩⟩ :
            CBlockHeader).GetHash :=
  getHash_depends_only_on_preimage _ _ rfl rfl rfl rfl rfl rfl

/-- C5 counterexample: on regtest the claimed monotonicity
`pow_target_timespan(h+1) <= pow_target_timespan(h)` fails at the
transition: the timespan steps up from 1 to 60 at height 100000. -/
theorem timespan_monotone_counterexample :
    ¬ regtestConsensus.nPowTargetTimespan (99999 + 1) ≤
        regtestConsensus.nPowTargetTimespan 99999 := by decide

/-- C5 amended: on main and test the timespan is antitone in the height;
on all three networks it equals nPowTargetTimespanBegin before
PowTargetTimespan60Height and 60 from that height on, so it changes at that
single height only - but on regtest the change is an increase from 1 to
60. -/
theorem timespan_transition_amended :
    (∀ h : Int, mainConsensus.nPowTargetTimespan (h + 1) ≤
        mainConsensus.nPowTargetTimespan h)
    ∧ (∀ h : Int, testConsensus.nPowTargetTimespan (h + 1) ≤
        testConsensus.nPowTargetTimespan h)
    ∧ (∀ h : Int, mainConsensus.nPowTargetTimespan h =
        if 145000 ≤ h then 60 else 14400)
    ∧ (∀ h : Int, testConsensus.nPowTargetTimespan h =
        if 145000 ≤ h then 60 else 14400)
    ∧ (∀ h : Int, regtestConsensus.nPowTargetTimespan h =
        if 100000 ≤ h then 60 else 1)
    ∧ regtestConsensus.nPowTargetTimespan 99999 <
        regtestConsensus.nPowTargetTimespan 100000 := by
  refine ⟨?_, ?_, ?_, ?_, ?_, by decide⟩ <;>
    intro h <;>
      simp only [ConsensusParams.nPowTargetTimespan, mainConsensus,
        testConsensus, regtestConsensus, ge_iff_le] <;>
      split <;> (try split) <;> omega

/-- C6 counterexample: with the empty branch and index -1 the function
returns the all-zero hash, not the (nonzero) leaf. -/
theorem merkleBranch_nil_counterexample :
    CheckMerkleBranch (1 :: List.replicate 31 0) [] (-1) ≠
      1 :: List.replicate 31 0 := by decide

/-- C6 amended: for every leaf and every index other than the -1 sentinel,
CheckMerkleBranch with the empty branch returns the leaf unchanged. -/
theorem merkleBranch_nil_amended (x : List Nat) (i : Int) (h : i ≠ -1) :
    CheckMerkleBranch x [] i = x := by
  unfold CheckMerkleBranch
  rw [if_neg h]
  rfl

/-- Witness for the amended C6 at a concrete leaf and index 0. -/
theorem merkleBranch_nil_amended_witness :
    CheckMerkleBranch [7] [] 0 = [7] :=
  merkleBranch_nil_amended _ _ (by decide)

/-- C8: with strict chain id on, an appendix whose parent header carries
our chain id (parent version >> 16) is rejected with ParentHasOurChainId,
provided the coinbase-index gate passed. -/
theorem strict_chain_id_rejects_parent (aux : CAuxPow) (hashAuxBlock : List Nat)
    (nChainId : Int) (params : ConsensusParams) (h0 : aux.nIndex = 0)
    (hs : params.fStrictChainId = true)
    (hid : aux.parentBlock.GetChainId = nChainId) :
    aux.check hashAuxBlock nChainId params = .parentHasOurChainId := by
  unfold CAuxPow.check
  rw [h0]
  simp [hs, hid]

/-- Witness for C8: parent version 0x00620001 has chain id 0x62 = 98, the
mainnet chain id, and mainnet has strict chain id on. -/
theorem strict_chain_id_rejects_parent_witness :
    CAuxPow.check ⟨⟨[], []⟩, [], [], 0, [], 0, ⟨0x00620001, [], [], 0, 0, 0⟩⟩
      [] 98 mainConsensus = .parentHasOurChainId :=
  strict_chain_id_rejects_parent _ _ _ _ rfl rfl (by decide)

/-- C10: IsLegacy and IsAuxpow are mutually exclusive: a 32-bit version
that is legacy (1, or 2 with chain id 0) never has version bit 8 set. -/
theorem legacy_and_auxpow_exclusive (v : Nat) (hv : v < 4294967296)
    (hl : isLegacyVersion v = true) : isAuxpowVersion v = false := by
  unfold isLegacyVersion at hl
  simp only [Bool.or_eq_true, Bool.and_eq_true, beq_iff_eq] at hl
  have hv12 : v = 1 ∨ v = 2 := by
    unfold toSigned32 at hl
    rcases hl with h1 | ⟨h2, _⟩
    · split at h1 <;> omega
    · split at h2 <;> omega
  rcases hv12 with rfl | rfl <;> decide

/-- Witness for C10 at version 1. -/
theorem legacy_and_auxpow_exclusive_witness : isAuxpowVersion 1 = false :=
  legacy_and_auxpow_exclusive 1 (by decide) (by decide)

/-- The size-and-index tail never produces the root-position error. -/
theorem checkSizeAndIndex_ne_root20 (s : List Nat) (p m : Nat) (ci cid : Int) :
    checkSizeAndIndex s p m ci cid ≠ .rootMustStartInFirst20Bytes := by
  simp only [checkSizeAndIndex]
  split
  · simp
  · split
    · simp
    · split <;> simp

/-- C7: inside CAuxPow::check, when the merged-mining magic is absent from
the parent coinbase script and all earlier gates passed, a script of
exactly 20 bytes of preamble followed by the 32-byte reversed chain Merkle
root (first occurrence at offset 20) passes the position check, while 21
bytes of preamble (first occurrence at offset 21) is rejected with
RootMustStartInFirst20Bytes. -/
theorem root_position_policy :
    (∀ (aux : CAuxPow) (hashAuxBlock : List Nat) (nChainId : Int)
        (params : ConsensusParams) (pre rest : List Nat),
      aux.nIndex = 0 →
      ¬(params.fStrictChainId = true ∧ aux.parentBlock.GetChainId = nChainId) →
      aux.vChainMerkleBranch.length ≤ 30 →
      CheckMerkleBranch aux.tx.txid aux.vMerkleBranch aux.nIndex =
        aux.parentBlock.hashMerkleRoot →
      findSub aux.tx.scriptSig mergedHdrMagic 0 = none →
      aux.tx.scriptSig = pre ++
        (CheckMerkleBranch hashAuxBlock aux.vChainMerkleBranch aux.nChainIndex).reverse
        ++ rest →
      pre.length = 20 →
      findSub aux.tx.scriptSig
        ((CheckMerkleBranch hashAuxBlock aux.vChainMerkleBranch aux.nChainIndex).reverse)
        0 = some 20 →
      aux.check hashAuxBlock nChainId params ≠ .rootMustStartInFirst20Bytes)
    ∧ (∀ (aux : CAuxPow) (hashAuxBlock : List Nat) (nChainId : Int)
        (params : ConsensusParams) (pre rest : List Nat),
      aux.nIndex = 0 →
      ¬(params.fStrictChainId = true ∧ aux.parentBlock.GetChainId = nChainId) →
      aux.vChainMerkleBranch.length ≤ 30 →
      CheckMerkleBranch aux.tx.txid aux.vMerkleBranch aux.nIndex =
        aux.parentBlock.hashMerkleRoot →
      findSub aux.tx.scriptSig mergedHdrMagic 0 = none →
      aux.tx.scriptSig = pre ++
        (CheckMerkleBranch hashAuxBlock aux.vChainMerkleBranch aux.nChainIndex).reverse
        ++ rest →
      pre.length = 21 →
      findSub aux.tx.scriptSig
        ((CheckMerkleBranch hashAuxBlock aux.vChainMerkleBranch aux.nChainIndex).reverse)
        0 = some 21 →
      aux.check hashAuxBlock nChainId params = .rootMustStartInFirst20Bytes) := by
  constructor <;>
  · intro aux hashAuxBlock nChainId params pre rest h0 hstrict hlen hmr hnomagic
      hscript hprelen hfind
    rw [h0] at hmr
    simp only [CAuxPow.check, h0, hmr, hfind, hnomagic, hstrict]
    simp [Nat.not_lt.mpr hlen, checkSizeAndIndex_ne_root20]

/-- Byte list used by the concrete AuxPoW witnesses: a 32-byte aux block
hash with bytes 40..71. -/
def wAuxHash : List Nat := (List.range 32).map (fun i => 40 + i)

/-- Witness script: 20 preamble bytes, the reversed root, size 1 and
nonce 0. -/
def wScript20 : List Nat :=
  List.replicate 20 9 ++ wAuxHash.reverse ++ [1, 0, 0, 0, 0, 0, 0, 0]

/-- Witness script with 21 preamble bytes. -/
def wScript21 : List Nat :=
  List.replicate 21 9 ++ wAuxHash.reverse ++ [1, 0, 0, 0, 0, 0, 0, 0]

/-- Witness for C7: concrete scripts with 20 and 21 preamble bytes, no
magic, on the testnet parameters (strict chain id off). -/
theorem root_position_policy_witness :
    CAuxPow.check ⟨⟨[], wScript20⟩, [], [], 0, [], 0, ⟨1, [], [], 0, 0, 0⟩⟩
        wAuxHash 98 testConsensus ≠ .rootMustStartInFirst20Bytes
    ∧ CAuxPow.check ⟨⟨[], wScript21⟩, [], [], 0, [], 0, ⟨1, [], [], 0, 0, 0⟩⟩
        wAuxHash 98 testConsensus = .rootMustStartInFirst20Bytes :=
  ⟨root_position_policy.1 _ _ _ _ (List.replicate 20 9) [1, 0, 0, 0, 0, 0, 0, 0]
      rfl (by decide) (by decide) (by decide) (by decide) (by decide) (by decide)
      (by decide),
   root_position_policy.2 _ _ _ _ (List.replicate 21 9) [1, 0, 0, 0, 0, 0, 0, 0]
      rfl (by decide) (by decide) (by decide) (by decide) (by decide) (by decide)
      (by decide)⟩

/-- The nonce CAuxPow::check parses out of the parent coinbase script: the
four little-endian bytes after the 4-byte size field that follows the
first occurrence of the reversed chain Merkle root. -/
def parsedAuxNonce (aux : CAuxPow) (hashAuxBlock : List Nat) : Nat :=
  match findSub aux.tx.scriptSig
      ((CheckMerkleBranch hashAuxBlock aux.vChainMerkleBranch aux.nChainIndex).reverse)
      0 with
  | some pcPos => readLE32 aux.tx.scriptSig (pcPos + 32 + 4)
  | none => 0

/-- When the size-and-index tail does not stop earlier, it answers
WrongIndex exactly on a chain index different from the expected one. -/
theorem checkSizeAndIndex_wrongIndex_iff (s : List Nat) (p m : Nat) (ci cid : Int)
    (hok : checkSizeAndIndex s p m ci cid = .ok ∨
      checkSizeAndIndex s p m ci cid = .wrongIndex) :
    (checkSizeAndIndex s p m ci cid = .wrongIndex ↔
      ci ≠ getExpectedIndex (readLE32 s (p + 32 + 4)) cid m) := by
  by_cases h1 : s.length - (p + 32) < 8
  · simp [checkSizeAndIndex, h1] at hok
  · by_cases h2 : readLE32 s (p + 32) ≠ 2 ^ m
    · simp [checkSizeAndIndex, h1, h2] at hok
    · by_cases h3 : ci ≠ getExpectedIndex (readLE32 s (p + 32 + 4)) cid m
      · simp [checkSizeAndIndex, h1, h2, h3]
      · simp [checkSizeAndIndex, h1, h2, h3]

/-- A verdict of ok or WrongIndex means every gate before the tail passed:
the root was found at some position and the check is the tail there. -/
theorem check_tail_form (aux : CAuxPow) (hashAuxBlock : List Nat)
    (nChainId : Int) (params : ConsensusParams)
    (hok : aux.check hashAuxBlock nChainId params = .ok ∨
      aux.check hashAuxBlock nChainId params = .wrongIndex) :
    ∃ pcPos, findSub aux.tx.scriptSig
        ((CheckMerkleBranch hashAuxBlock aux.vChainMerkleBranch aux.nChainIndex).reverse)
        0 = some pcPos ∧
      aux.check hashAuxBlock nChainId params =
        checkSizeAndIndex aux.tx.scriptSig pcPos aux.vChainMerkleBranch.length
          aux.nChainIndex nChainId := by
  by_cases c1 : aux.nIndex ≠ 0
  · simp [CAuxPow.check, c1] at hok
  · by_cases c2 : params.fStrictChainId = true ∧ aux.parentBlock.GetChainId = nChainId
    · simp [CAuxPow.check, c1, c2] at hok
    · by_cases c3 : 30 < aux.vChainMerkleBranch.length
      · simp [CAuxPow.check, c1, c2, c3] at hok
      · by_cases c4 : CheckMerkleBranch aux.tx.txid aux.vMerkleBranch aux.nIndex ≠
            aux.parentBlock.hashMerkleRoot
        · simp [CAuxPow.check, c1, c2, c3, c4] at hok
        · cases hfind : findSub aux.tx.scriptSig
              ((CheckMerkleBranch hashAuxBlock aux.vChainMerkleBranch aux.nChainIndex).reverse)
              0 with
          | none => simp [CAuxPow.check, c1, c2, c3, c4, hfind] at hok
          | some pcPos =>
            cases hhead : findSub aux.tx.scriptSig mergedHdrMagic 0 with
            | some headPos =>
              by_cases c5 : (findSub aux.tx.scriptSig mergedHdrMagic (headPos + 1)).isSome
              · simp [CAuxPow.check, c1, c2, c3, c4, hfind, hhead, c5] at hok
              · by_cases c6 : headPos + 4 ≠ pcPos
                · simp [CAuxPow.check, c1, c2, c3, c4, hfind, hhead, c5, c6] at hok
                · exact ⟨pcPos, rfl,
                    by simp [CAuxPow.check, c1, c2, c3, c4, hfind, hhead, c5, c6]⟩
            | none =>
              by_cases c7 : 20 < pcPos
              · simp [CAuxPow.check, c1, c2, c3, c4, hfind, hhead, c7] at hok
              · exact ⟨pcPos, rfl,
                  by simp [CAuxPow.check, c1, c2, c3, c4, hfind, hhead, c7]⟩

/-- C4: getExpectedIndex realizes the spec formula - one modulo 2^32 after
the whole 32-bit wrapping computation, then modulo 2^h for branch height
h at most 30 - in particular at (nonce 0, chain id 0x62, h 4); and when
every earlier gate of CAuxPow::check passed (verdict ok or WrongIndex),
the verdict is WrongIndex exactly when nChainIndex differs from the
expected index computed from the parsed nonce. -/
theorem expectedIndex_formula_and_wrongIndex :
    (∀ (nNonce : Nat) (nChainId : Int) (h : Nat), h ≤ 30 →
      getExpectedIndex nNonce nChainId h =
        ((((nNonce : Int) * 1103515245 + 12345 + nChainId) * 1103515245 + 12345)
          % 2 ^ 32) % 2 ^ h)
    ∧ getExpectedIndex 0 0x0062 4 =
        ((((0 * 1103515245 + 12345 + 98) * 1103515245 + 12345 : Int)) % 2 ^ 32) % 16
    ∧ (∀ (aux : CAuxPow) (hashAuxBlock : List Nat) (nChainId : Int)
        (params : ConsensusParams),
        (aux.check hashAuxBlock nChainId params = .ok ∨
         aux.check hashAuxBlock nChainId params = .wrongIndex) →
        (aux.check hashAuxBlock nChainId params = .wrongIndex ↔
          aux.nChainIndex ≠
            getExpectedIndex (parsedAuxNonce aux hashAuxBlock) nChainId
              aux.vChainMerkleBranch.length)) := by
  refine ⟨?_, by decide, ?_⟩
  · intro nNonce nChainId h hh
    have hdvd : ((2:Int) ^ h) ∣ 4294967296 := by
      have hd := pow_dvd_pow (2:Int) (show h ≤ 32 by omega)
      norm_num at hd
      exact hd
    have hnn : (0:Int) ≤
        (((nNonce : Int) * 1103515245 + 12345) % ((M32 : Nat) : Int) + nChainId) %
          ((M32 : Nat) : Int) :=
      Int.emod_nonneg _ (by norm_num [M32])
    have hM : ((M32 : Nat) : Int) = 4294967296 := by norm_num [M32]
    simp only [getExpectedIndex]
    push_cast
    rw [Int.toNat_of_nonneg hnn, hM]
    have m1 : ∀ y : Int, y % 4294967296 % (2:Int) ^ h = y % (2:Int) ^ h :=
      fun y => Int.emod_emod_of_dvd y hdvd
    rw [m1, m1]
    have s0 : ((nNonce : Int) * 1103515245 + 12345) % 4294967296 ≡
        (nNonce : Int) * 1103515245 + 12345 [ZMOD (2:Int) ^ h] := m1 _
    have s1 := s0.add_right nChainId
    have s2pre : (((nNonce : Int) * 1103515245 + 12345) % 4294967296 + nChainId)
          % 4294967296 ≡
        ((nNonce : Int) * 1103515245 + 12345) % 4294967296 + nChainId
          [ZMOD (2:Int) ^ h] := m1 _
    have s2 := s2pre.trans s1
    exact (s2.mul_right 1103515245).add_right 12345
  · intro aux hashAuxBlock nChainId params hok
    obtain ⟨pcPos, hfind, heq⟩ := check_tail_form aux hashAuxBlock nChainId params hok
    rw [heq] at hok ⊢
    rw [checkSizeAndIndex_wrongIndex_iff _ _ _ _ _ hok]
    simp only [parsedAuxNonce, hfind]

/-- Witness for C4: the formula conjunct at (0, 98, 4), and the WrongIndex
conjunct at a concrete appendix that the canonical check accepts. -/
theorem expectedIndex_formula_and_wrongIndex_witness :
    getExpectedIndex 0 0x0062 4 =
      ((((0 * 1103515245 + 12345 + 98) * 1103515245 + 12345 : Int)) % 2 ^ 32) % 16
    ∧ (CAuxPow.check ⟨⟨[], wScript20⟩, [], [], 0, [], 0, ⟨1, [], [], 0, 0, 0⟩⟩
          wAuxHash 98 testConsensus = .wrongIndex ↔
        (0 : Int) ≠ getExpectedIndex
          (parsedAuxNonce ⟨⟨[], wScript20⟩, [], [], 0, [], 0, ⟨1, [], [], 0, 0, 0⟩⟩
            wAuxHash) 98 0) :=
  ⟨expectedIndex_formula_and_wrongIndex.2.1,
   expectedIndex_formula_and_wrongIndex.2.2 _ _ _ _ (Or.inl (by decide))⟩

set_option maxRecDepth 1000000 in
/-- C9: the mainnet genesis block built from time 1386325540, nonce 99943,
bits 0x1e0ffff0, version 1, reward 88 * 10^8, the "Nintondo" timestamp and
the fixed 65-byte-pubkey OP_CHECKSIG output script has the double SHA-256
hash and the Merkle root that chainparams.cpp asserts. -/
theorem mainnet_genesis_hash_and_root :
    mainGenesis.GetHash = mainGenesisHashDisplay.reverse ∧
      mainGenesis.hashMerkleRoot = mainMerkleRootDisplay.reverse := by
  constructor <;> decide

end Doge
